import Mathlib

/-!
Verification of the completion request/response bridge of
`ai00_rwkv_server` (`src/completion.rs`): the request translator
(`From<CompletionRequest> for GenerateRequest`), the stream-aggregation
loop of `completions`, and the response builder.

Machine integers (`usize`) are modelled as `Nat`; the `f32` sampler knobs
are stored but never computed with here, so they are modelled as `Rat`.
The async channel reads are modelled by passing the values the channels
would have delivered as explicit arguments: the one-shot prompt-token
reply becomes an `Option Nat` (`none` = channel closed without a value)
and the token stream becomes the finite `List Token` received before the
channel closed.
-/

namespace Ai00

/-- Modelled from the spec: `OptionArray<T>` (declared in the crate root,
not in the excerpt) holds nothing, one item, or an ordered sequence of
items; its default is empty.  Spec: "`prompt` (one string or an ordered
sequence of strings, semantically concatenated)". -/
inductive OptionArray (α : Type) where
  | None : OptionArray α
  | Item (item : α) : OptionArray α
  | Array (vec : List α) : OptionArray α
deriving Repr, DecidableEq

/-- Modelled from the spec: the crate-root `Vec::from` conversion for
`OptionArray`, turning it into the ordered sequence it denotes
(empty, singleton, or the array itself). -/
def OptionArray.toList {α : Type} : OptionArray α → List α
  | .None => []
  | .Item item => [item]
  | .Array vec => vec

/-- `Sampler` from `sampler.rs` (only its four knobs are visible in the
excerpt); the `f32` fields are modelled as `Rat` since this core only
stores them. -/
structure Sampler where
  temperature : Rat
  top_p : Rat
  presence_penalty : Rat
  frequency_penalty : Rat
deriving Repr, DecidableEq

/-- `CompletionRequest` from `src/completion.rs`. -/
structure CompletionRequest where
  prompt : OptionArray String
  max_tokens : Nat
  stop : OptionArray String
  temperature : Rat
  top_p : Rat
  presence_penalty : Rat
  frequency_penalty : Rat
deriving Repr, DecidableEq

/-- The `Default` impl for `CompletionRequest` from `src/completion.rs`. -/
def CompletionRequest.default : CompletionRequest where
  prompt := OptionArray.None
  max_tokens := 256
  stop := OptionArray.None
  temperature := 1
  top_p := 1
  presence_penalty := 0
  frequency_penalty := 0

/-- Modelled from the spec: the process-wide ceiling `crate::MAX_TOKENS`
(declared in the crate root, not in the excerpt).  Its numeric value does
not appear in the excerpt; 4096 is used as a representative concrete
value, and no theorem below depends on which value it is. -/
def MAX_TOKENS : Nat := 4096

/-- `GenerateRequest` from the crate root; its fields are pinned by the
struct literal built in `From<CompletionRequest> for GenerateRequest`
(`src/completion.rs`).  `occurrences` is the empty frequency map owned by
the worker; its key/value types are opaque here and modelled as a list of
(token id, count) pairs. -/
structure GenerateRequest where
  prompt : String
  max_tokens : Nat
  stop : List String
  sampler : Sampler
  occurrences : List (Nat × Nat)
deriving Repr, DecidableEq

/-- `From<CompletionRequest> for GenerateRequest` from `src/completion.rs`:
`prompt = Vec::from(prompt).join("")`, `max_tokens = max_tokens.min(MAX_TOKENS)`,
`stop = stop.into()`, knobs copied verbatim, `occurrences` empty. -/
def GenerateRequest.fromCompletionRequest (value : CompletionRequest) : GenerateRequest where
  prompt := String.join value.prompt.toList
  max_tokens := min value.max_tokens MAX_TOKENS
  stop := value.stop.toList
  sampler :=
    { temperature := value.temperature
      top_p := value.top_p
      presence_penalty := value.presence_penalty
      frequency_penalty := value.frequency_penalty }
  occurrences := []

/-- Modelled from the spec: the `Token` enum from the crate root; its three
variants are pinned by the match arms of the aggregation loop in
`src/completion.rs`. -/
inductive Token where
  | Token (fragment : String) : Token
  | EndOfText : Token
  | CutOff : Token
deriving Repr, DecidableEq

/-- Modelled from the spec: the `FinishReason` enum from the crate root;
the variants are pinned by their uses in `src/completion.rs`. -/
inductive FinishReason where
  | Null : FinishReason
  | Stop : FinishReason
  | Length : FinishReason
deriving Repr, DecidableEq

/-- Modelled from the spec: `TokenCounter` from the crate root; its fields
are pinned by the struct literal and field updates in `src/completion.rs`. -/
structure TokenCounter where
  prompt_tokens : Nat
  completion_tokens : Nat
  total_tokens : Nat
deriving Repr, DecidableEq

/-- `CompletionChoice` from `src/completion.rs`. -/
structure CompletionChoice where
  text : String
  index : Nat
  finish_reason : FinishReason
deriving Repr, DecidableEq

/-- `CompletionResponse` from `src/completion.rs` (the `counter` field is
serialized under the name `usage`). -/
structure CompletionResponse where
  object : String
  choices : List CompletionChoice
  counter : TokenCounter
deriving Repr, DecidableEq

/-- The mutable local state of the aggregation loop in `completions`:
`text`, `counter`, `finish_reason`. -/
structure AggState where
  text : String
  counter : TokenCounter
  finish_reason : FinishReason
deriving Repr, DecidableEq

/-- One iteration of the `while let` loop body of `completions` applied to
the remaining stream: `Token(token)` appends the fragment and bumps
`completion_tokens` and `total_tokens`; `EndOfText` sets `finish_reason =
Stop` and breaks; `CutOff` sets `finish_reason = Length` and breaks; the
loop also ends when the stream is exhausted. -/
def processTokens : List Token → AggState → AggState
  | [], s => s
  | Token.Token token :: rest, s =>
      processTokens rest
        { s with
          text := s.text ++ token
          counter :=
            { s.counter with
              completion_tokens := s.counter.completion_tokens + 1
              total_tokens := s.counter.total_tokens + 1 } }
  | Token.EndOfText :: _, s => { s with finish_reason := FinishReason.Stop }
  | Token.CutOff :: _, s => { s with finish_reason := FinishReason.Length }

/-- The counter as initialized in `completions` after the prompt-token
read: `TokenCounter { prompt_tokens, completion_tokens: 0, total_tokens:
prompt_tokens }`. -/
def initCounter (prompt_tokens : Nat) : TokenCounter where
  prompt_tokens := prompt_tokens
  completion_tokens := 0
  total_tokens := prompt_tokens

/-- Modelled from the spec: `RequestKind` from the crate root, a closed
set of request variants; only the `Completion` variant appears in the
excerpt (`crate::RequestKind::Completion(request)`). -/
inductive RequestKind where
  | Completion (request : CompletionRequest) : RequestKind
deriving Repr, DecidableEq

/-- The value `completions` places on the dispatch channel:
`ThreadRequest { request: RequestKind::Completion(request), .. }`.  The
send is unconditional (`let _ = sender.send(...)`), for every request. -/
def completionsDispatch (request : CompletionRequest) : RequestKind :=
  RequestKind.Completion request

/-- The `completions` handler of `src/completion.rs` as a function of the
request and of what the two reply channels delivered:
`prompt_tokens_reply` is the one-shot prompt-token read (`none` models
`recv_async` failing because the channel closed, so `unwrap_or_default`
yields 0), and `token_stream` is the finite list of `Token` values the
stream delivered before closing.  The request itself is only dispatched;
the response is assembled from the aggregation end state. -/
def completions (request : CompletionRequest) (prompt_tokens_reply : Option Nat)
    (token_stream : List Token) : CompletionResponse :=
  let prompt_tokens := prompt_tokens_reply.getD 0
  let s := processTokens token_stream
    { text := ""
      counter := initCounter prompt_tokens
      finish_reason := FinishReason.Null }
  { object := "text_completion"
    choices := [{ text := s.text, index := 0, finish_reason := s.finish_reason }]
    counter := s.counter }

/-- Modelled from the spec: the wire-level request body, every field
optional ("Wire contract (request, JSON object, all fields optional with
defaults)"); `none` models an absent JSON field. -/
structure CompletionRequestWire where
  prompt : Option (OptionArray String)
  max_tokens : Option Nat
  stop : Option (OptionArray String)
  temperature : Option Rat
  top_p : Option Rat
  presence_penalty : Option Rat
  frequency_penalty : Option Rat
deriving Repr, DecidableEq

/-- Modelled from the spec: the effect of `#[serde(default)]` on
`CompletionRequest` — each absent field is filled from
`CompletionRequest::default()`; deserialization of the fields themselves
is total, absence is never an error. -/
def CompletionRequestWire.deserialize (w : CompletionRequestWire) : CompletionRequest where
  prompt := w.prompt.getD CompletionRequest.default.prompt
  max_tokens := w.max_tokens.getD CompletionRequest.default.max_tokens
  stop := w.stop.getD CompletionRequest.default.stop
  temperature := w.temperature.getD CompletionRequest.default.temperature
  top_p := w.top_p.getD CompletionRequest.default.top_p
  presence_penalty := w.presence_penalty.getD CompletionRequest.default.presence_penalty
  frequency_penalty := w.frequency_penalty.getD CompletionRequest.default.frequency_penalty

/-! ### Helper lemmas -/

/-- `String.join` of a cons: the head is prepended to the join of the
tail, i.e. joining with the empty separator is plain concatenation. -/
theorem join_cons (s : String) (l : List String) :
    String.join (s :: l) = s ++ String.join l := by
  apply String.ext
  simp [String.join_eq]

/-- The loop body never touches `prompt_tokens`. -/
theorem processTokens_prompt_tokens (ts : List Token) (s : AggState) :
    (processTokens ts s).counter.prompt_tokens = s.counter.prompt_tokens := by
  induction ts generalizing s with
  | nil => rfl
  | cons t rest ih =>
    cases t with
    | Token fragment => exact ih _
    | EndOfText => rfl
    | CutOff => rfl

/-- Running the loop over a terminal-free stream (`Token` fragments only)
from an arbitrary state: the fragments get appended in order, both
running counters grow by the number of fragments, and the finish reason
is untouched. -/
theorem processTokens_fragments (fragments : List String) (s : AggState) :
    processTokens (fragments.map Token.Token) s =
      { text := s.text ++ String.join fragments
        counter :=
          { s.counter with
            completion_tokens := s.counter.completion_tokens + fragments.length
            total_tokens := s.counter.total_tokens + fragments.length }
        finish_reason := s.finish_reason } := by
  induction fragments generalizing s with
  | nil =>
    obtain ⟨text, ⟨p, c, t⟩, fr⟩ := s
    simp [processTokens, String.join]
  | cons f rest ih =>
    rw [List.map_cons]
    show processTokens (rest.map Token.Token) _ = _
    rw [ih]
    obtain ⟨text, ⟨p, c, t⟩, fr⟩ := s
    simp [join_cons, String.append_assoc, Nat.add_assoc, Nat.add_comm 1]

/-- The counter invariant: `total_tokens` is the sum of the other two
fields. -/
def counterInv (c : TokenCounter) : Prop :=
  c.total_tokens = c.prompt_tokens + c.completion_tokens

/-- The loop preserves the counter invariant. -/
theorem processTokens_counterInv (ts : List Token) (s : AggState)
    (h : counterInv s.counter) : counterInv (processTokens ts s).counter := by
  induction ts generalizing s with
  | nil => exact h
  | cons t rest ih =>
    cases t with
    | Token fragment =>
      apply ih
      simp only [counterInv] at h ⊢
      omega
    | EndOfText => exact h
    | CutOff => exact h

/-! ### Claim theorems -/

/-- C1: the aggregation loop is a left fold in arrival order — a
`Token(fragment)` step appends the fragment and increments
`completion_tokens` and `total_tokens` by exactly 1 each, `EndOfText`
sets `finish_reason = Stop` and stops consumption, `CutOff` sets
`finish_reason = Length` and stops consumption; on the stream
`Token("a"), Token("b"), EndOfText` the result has `text == "ab"`,
`finish_reason == Stop`, `completion_tokens == 2`. -/
theorem aggregation_left_fold_c1 :
    (∀ (fragment : String) (rest : List Token) (s : AggState),
      processTokens (Token.Token fragment :: rest) s =
        processTokens rest
          { s with
            text := s.text ++ fragment
            counter :=
              { s.counter with
                completion_tokens := s.counter.completion_tokens + 1
                total_tokens := s.counter.total_tokens + 1 } }) ∧
    (∀ (rest : List Token) (s : AggState),
      processTokens (Token.EndOfText :: rest) s =
        { s with finish_reason := FinishReason.Stop }) ∧
    (∀ (rest : List Token) (s : AggState),
      processTokens (Token.CutOff :: rest) s =
        { s with finish_reason := FinishReason.Length }) ∧
    (∀ (request : CompletionRequest),
      completions request (some 0)
          [Token.Token "a", Token.Token "b", Token.EndOfText] =
        { object := "text_completion"
          choices := [{ text := "ab", index := 0, finish_reason := FinishReason.Stop }]
          counter := { prompt_tokens := 0, completion_tokens := 2, total_tokens := 2 } }) :=
  ⟨fun _ _ _ => rfl, fun _ _ => rfl, fun _ _ => rfl, fun _ => rfl⟩

/-- C2: `total_tokens == prompt_tokens + completion_tokens` holds for the
counter as initialized, is preserved by the aggregation loop from any
state satisfying it, and therefore holds for the counter of every
response `completions` returns, for every prompt-token reply and token
stream. -/
theorem counter_invariant_c2 (prompt_tokens : Nat) (ts : List Token) (s : AggState)
    (h : counterInv s.counter) (request : CompletionRequest) (reply : Option Nat) :
    counterInv (initCounter prompt_tokens) ∧
    counterInv (processTokens ts s).counter ∧
    counterInv (completions request reply ts).counter := by
  refine ⟨?_, processTokens_counterInv ts s h, ?_⟩
  · simp [counterInv, initCounter]
  · exact processTokens_counterInv ts _ (by simp [counterInv, initCounter])

/-- Witness for C2 at concrete inputs. -/
theorem counter_invariant_c2_witness :
    counterInv (initCounter 5) ∧
    counterInv (processTokens [Token.Token "x"]
      { text := "y"
        counter := { prompt_tokens := 2, completion_tokens := 1, total_tokens := 3 }
        finish_reason := FinishReason.Null }).counter ∧
    counterInv (completions CompletionRequest.default (some 5) [Token.Token "x"]).counter :=
  counter_invariant_c2 5 [Token.Token "x"]
    { text := "y"
      counter := { prompt_tokens := 2, completion_tokens := 1, total_tokens := 3 }
      finish_reason := FinishReason.Null }
    rfl CompletionRequest.default (some 5)

/-- C3: the translation sets `max_tokens` to `min(requested, MAX_TOKENS)`,
so the translated value never exceeds the process-wide ceiling, for any
requested value — including one far above the ceiling. -/
theorem max_tokens_clamped_c3 (value : CompletionRequest) :
    (GenerateRequest.fromCompletionRequest value).max_tokens =
      min value.max_tokens MAX_TOKENS ∧
    (GenerateRequest.fromCompletionRequest value).max_tokens ≤ MAX_TOKENS ∧
    (GenerateRequest.fromCompletionRequest
      { value with max_tokens := 1000000000 }).max_tokens = MAX_TOKENS :=
  ⟨rfl, Nat.min_le_right _ _, by simp [GenerateRequest.fromCompletionRequest, MAX_TOKENS]⟩

/-- C4: the translated prompt is the empty-separator join of the prompt
sequence — joining is order-preserving concatenation with nothing
inserted (`join (s :: l) = s ++ join l`, `join [] = ""`), the prompt
array `["a", "b"]` yields `"ab"`, and the translation is a total
function (it cannot fail). -/
theorem prompt_concatenation_c4 (value : CompletionRequest) (s : String) (l : List String) :
    (GenerateRequest.fromCompletionRequest value).prompt =
      String.join value.prompt.toList ∧
    String.join (s :: l) = s ++ String.join l ∧
    String.join ([] : List String) = "" ∧
    (GenerateRequest.fromCompletionRequest
      { CompletionRequest.default with prompt := OptionArray.Array ["a", "b"] }).prompt
      = "ab" :=
  ⟨rfl, join_cons s l, rfl, rfl⟩

/-- C5: a stream that closes without ever emitting a terminal variant
(arbitrary fragments, no `EndOfText`/`CutOff`) ends the loop with
`finish_reason` still `Null`, text and counters reflecting exactly the
fragments received, and a well-formed response is still returned — not an
error. -/
theorem no_terminal_marker_c5 (fragments : List String) (request : CompletionRequest)
    (reply : Option Nat) :
    completions request reply (fragments.map Token.Token) =
      { object := "text_completion"
        choices :=
          [{ text := String.join fragments
             index := 0
             finish_reason := FinishReason.Null }]
        counter :=
          { prompt_tokens := reply.getD 0
            completion_tokens := fragments.length
            total_tokens := reply.getD 0 + fragments.length } } := by
  simp [completions, processTokens_fragments, initCounter, String.empty_append]

/-- C6: when the prompt-token reply channel closes without a value
(`none`), `prompt_tokens` defaults to 0 — the counter starts at
`⟨0, 0, 0⟩`, aggregation proceeds exactly as with an explicit reply of 0,
the returned `prompt_tokens` is 0, and a response is still produced. -/
theorem missing_prompt_count_c6 (request : CompletionRequest) (token_stream : List Token) :
    completions request none token_stream = completions request (some 0) token_stream ∧
    initCounter ((none : Option Nat).getD 0) =
      { prompt_tokens := 0, completion_tokens := 0, total_tokens := 0 } ∧
    (completions request none token_stream).counter.prompt_tokens = 0 := by
  refine ⟨rfl, rfl, ?_⟩
  show (processTokens token_stream _).counter.prompt_tokens = 0
  rw [processTokens_prompt_tokens]
  rfl

/-- C7: when dispatch fails the reply channels deliver nothing (`none`
prompt reply, empty stream); `completions` still returns a well-formed
response with empty text, zero completion tokens and `finish_reason =
Null` — there is no error path, a response value is returned for every
request. -/
theorem dispatch_failure_defaults_c7 (request : CompletionRequest) :
    completions request none [] =
      { object := "text_completion"
        choices := [{ text := "", index := 0, finish_reason := FinishReason.Null }]
        counter := { prompt_tokens := 0, completion_tokens := 0, total_tokens := 0 } } :=
  rfl

/-- C8: every response has `object = "text_completion"` and exactly one
choice, at index 0, carrying the accumulated text and resolved finish
reason; the scenario `prompt_tokens = 1` then `Token("!"), EndOfText`
yields the exact response of the spec. -/
theorem response_builder_c8 (request : CompletionRequest) (reply : Option Nat)
    (ts : List Token) :
    (completions request reply ts).object = "text_completion" ∧
    (completions request reply ts).choices =
      [{ text :=
           (processTokens ts
             { text := ""
               counter := initCounter (reply.getD 0)
               finish_reason := FinishReason.Null }).text
         index := 0
         finish_reason :=
           (processTokens ts
             { text := ""
               counter := initCounter (reply.getD 0)
               finish_reason := FinishReason.Null }).finish_reason }] ∧
    completions request (some 1) [Token.Token "!", Token.EndOfText] =
      { object := "text_completion"
        choices := [{ text := "!", index := 0, finish_reason := FinishReason.Stop }]
        counter := { prompt_tokens := 1, completion_tokens := 1, total_tokens := 2 } } :=
  ⟨rfl, rfl, rfl⟩

/-- C9: the defaults are prompt empty, `max_tokens` 256, stop empty,
temperature 1.0, top_p 1.0, presence_penalty 0.0, frequency_penalty 0.0;
a request body with every field absent deserializes successfully to
exactly those defaults, and absence of any single field is not an error —
that field alone falls back to its default. -/
theorem request_defaults_c9 (w : CompletionRequestWire) :
    CompletionRequest.default =
      { prompt := OptionArray.None
        max_tokens := 256
        stop := OptionArray.None
        temperature := 1
        top_p := 1
        presence_penalty := 0
        frequency_penalty := 0 } ∧
    CompletionRequestWire.deserialize
      { prompt := none, max_tokens := none, stop := none, temperature := none
        top_p := none, presence_penalty := none, frequency_penalty := none } =
      CompletionRequest.default ∧
    ({ w with prompt := none } : CompletionRequestWire).deserialize.prompt =
      OptionArray.None ∧
    ({ w with max_tokens := none } : CompletionRequestWire).deserialize.max_tokens = 256 ∧
    ({ w with stop := none } : CompletionRequestWire).deserialize.stop =
      OptionArray.None ∧
    ({ w with temperature := none } : CompletionRequestWire).deserialize.temperature = 1 ∧
    ({ w with top_p := none } : CompletionRequestWire).deserialize.top_p = 1 ∧
    ({ w with presence_penalty := none } :
      CompletionRequestWire).deserialize.presence_penalty = 0 ∧
    ({ w with frequency_penalty := none } :
      CompletionRequestWire).deserialize.frequency_penalty = 0 :=
  ⟨rfl, rfl, rfl, rfl, rfl, rfl, rfl, rfl, rfl⟩

/-- C10: no positivity check is imposed — a requested `max_tokens` of 0
translates to `max_tokens = 0` (`min(0, MAX_TOKENS) = 0`), an empty
prompt translates to the empty string, and such a request is still
dispatched (wrapped as `RequestKind::Completion` and sent) and answered
with a well-formed response rather than rejected. -/
theorem no_positivity_check_c10 (request : CompletionRequest) :
    (GenerateRequest.fromCompletionRequest { request with max_tokens := 0 }).max_tokens
      = 0 ∧
    (GenerateRequest.fromCompletionRequest { request with prompt := OptionArray.None }).prompt
      = "" ∧
    completionsDispatch { request with max_tokens := 0, prompt := OptionArray.None } =
      RequestKind.Completion { request with max_tokens := 0, prompt := OptionArray.None } ∧
    completions { request with max_tokens := 0, prompt := OptionArray.None }
        (some 0) [Token.EndOfText] =
      { object := "text_completion"
        choices := [{ text := "", index := 0, finish_reason := FinishReason.Stop }]
        counter := { prompt_tokens := 0, completion_tokens := 0, total_tokens := 0 } } := by
  refine ⟨?_, rfl, rfl, rfl⟩
  simp [GenerateRequest.fromCompletionRequest]

end Ai00
